import Mathlib

/-!
Verification of the intel_gpu graph-lowering engine of this repository.

The definitions below are a shallow embedding of
`src/plugins/intel_gpu/src/plugin/program_builder.cpp` and
`src/plugins/intel_gpu/src/plugin/ops/matmul.cpp`:

* `canTransposeInputs`, `transposeInput`, `CreateMatMulOp` embed the matmul
  builder (matmul.cpp lines 23-124);
* `layer_type_lower_str`, `layer_type_name_ID`, `GetInputInfo`,
  `add_primitive`, `CreateSingleLayerPrimitive`, `is_op_supported`,
  `requires_new_shape_infer` embed the corresponding members of
  `ProgramBuilder` (program_builder.cpp).

C++ machine values are modelled with `Nat`/`String`/`Bool`; `std::map` is
modelled as an association list with insert-or-replace update; exceptions
are modelled with `Except`, the error carrying the message together with
the builder state at the throw point (mutations made before a throw
persist on the C++ object).
-/

namespace OVGpu

/-- Element types needed by the matmul heuristic (ov::element::Type). -/
inductive ElementType where
  | f32
  | f16
  | i32
  | i8
  | u8
deriving DecidableEq, Repr

/-- One dimension of an `ov::PartialShape`: a static length or dynamic. -/
inductive Dimension where
  | static (len : Nat)
  | dynamic
deriving DecidableEq, Repr

/-- `ov::Dimension::is_static`. -/
def Dimension.is_static : Dimension → Bool
  | .static _ => true
  | .dynamic => false

/-- `ov::Dimension::get_length`. Only meaningful for static dimensions; every
call site below guards it with `is_static` or a whole-shape static check,
mirroring the C++ contract (get_length on a dynamic dimension is an error). -/
def Dimension.get_length : Dimension → Nat
  | .static n => n
  | .dynamic => 0

/-- An `ov::PartialShape` with static rank: its list of dimensions. -/
abbrev PartialShape := List Dimension

/-- `ov::PartialShape::is_dynamic`: some dimension is dynamic. -/
def PartialShape.is_dynamic (s : PartialShape) : Bool :=
  s.any (fun d => !d.is_static)

/-- `ov::PartialShape::to_shape` for a static shape: the static lengths. -/
def PartialShape.to_shape (s : PartialShape) : List Nat :=
  s.map Dimension.get_length

/-- `tensor_from_dims(shape.to_shape()).count()`: the total element count,
i.e. the product of all dimensions (cldnn tensor padding dims are 1). -/
def shapeCount (s : PartialShape) : Nat :=
  (s.to_shape).foldl (· * ·) 1

/-- The last two dimensions of a shape, as iterated by
`shape.rbegin(), shape.rbegin() + 2` (callers guard rank >= 2). -/
def lastTwo (s : PartialShape) : List Dimension :=
  s.reverse.take 2

/-- The `canTransposeInputs` lambda of `CreateMatMulOp`
(matmul.cpp lines 44-73), with the device capability
`p.get_engine().get_device_info().supports_immad` passed as an argument.
Note that the source computes both `in0_very_large` and `in1_very_large`
from `shapes[0]` (lines 68-69); the embedding reproduces that literally. -/
def canTransposeInputs (shape0 shape1 : PartialShape) (transA transB : Bool)
    (etype : ElementType) (supports_immad : Bool) : Bool :=
  if !transA && !transB then false
  else if shape0.is_dynamic || shape1.is_dynamic ||
          shape0.length < 2 || shape1.length < 2 then false
  else
    let inputsAligned :=
      (lastTwo shape0).all (fun d => d.is_static && d.get_length % 16 == 0) &&
      (lastTwo shape1).all (fun d => d.is_static && d.get_length % 16 == 0)
    if inputsAligned then false
    else
      let in0_large := (lastTwo shape0).all (fun d => d.is_static && d.get_length ≥ 64)
      let in1_large := (lastTwo shape1).all (fun d => d.is_static && d.get_length ≥ 64)
      let is_u8_i8 := etype == ElementType.i8 || etype == ElementType.u8
      let in0_very_large := shapeCount shape0 > 100000
      let in1_very_large := shapeCount shape0 > 100000
      let needs_to_transpose_inputs :=
        (in0_very_large || in1_very_large) && !is_u8_i8 && !supports_immad
      (in0_large && in1_large) || needs_to_transpose_inputs

/-- The same heuristic as the spec words it ("when at least one operand's
total element count exceeds a fixed large-tensor threshold"): the second
very-large test reads the second operand. Reference definition for the
refinement comparison with `canTransposeInputs`. -/
def canTransposeInputsSpec (shape0 shape1 : PartialShape) (transA transB : Bool)
    (etype : ElementType) (supports_immad : Bool) : Bool :=
  if !transA && !transB then false
  else if shape0.is_dynamic || shape1.is_dynamic ||
          shape0.length < 2 || shape1.length < 2 then false
  else
    let inputsAligned :=
      (lastTwo shape0).all (fun d => d.is_static && d.get_length % 16 == 0) &&
      (lastTwo shape1).all (fun d => d.is_static && d.get_length % 16 == 0)
    if inputsAligned then false
    else
      let in0_large := (lastTwo shape0).all (fun d => d.is_static && d.get_length ≥ 64)
      let in1_large := (lastTwo shape1).all (fun d => d.is_static && d.get_length ≥ 64)
      let is_u8_i8 := etype == ElementType.i8 || etype == ElementType.u8
      let in0_very_large := shapeCount shape0 > 100000
      let in1_very_large := shapeCount shape1 > 100000
      let needs_to_transpose_inputs :=
        (in0_very_large || in1_very_large) && !is_u8_i8 && !supports_immad
      (in0_large && in1_large) || needs_to_transpose_inputs

/-- Type identity of a node (`ov::NodeTypeInfo`): type name and version. -/
structure NodeTypeInfo where
  name : String
  version_id : String
deriving DecidableEq, Repr

/-- One input edge of a node, with the facts about the producer that
`ProgramBuilder::GetInputInfo` reads from `op->get_input_node_ptr(i)` and
`op->get_input_source_output(i)`. -/
structure InputEdge where
  producer_type_name : String
  producer_friendly_name : String
  producer_output_size : Nat
  producer_is_split : Bool
  producer_is_variadic_split : Bool
  source_output_index : Nat
deriving DecidableEq, Repr

/-- An operation graph node, with the fields the embedded builders read.
`type_info` is the exact type identity, `parent_types` the rest of the
`->parent` chain, most specific first. The transpose flags and element
types are those of `ov::op::v0::MatMul` accessors; they are ignored by
builders that do not read them. -/
structure Node where
  type_info : NodeTypeInfo
  parent_types : List NodeTypeInfo
  friendly_name : String
  inputs : List InputEdge
  input_shapes : List PartialShape
  output_shapes : List PartialShape
  transpose_a : Bool
  transpose_b : Bool
  input0_element_type : ElementType
  output_element_type : ElementType
  is_fc_compressed : Bool
deriving DecidableEq, Repr

/-- `ov::Node::is_dynamic`: some output partial shape is dynamic. -/
def Node.is_dynamic (op : Node) : Bool :=
  op.output_shapes.any PartialShape.is_dynamic

/-- `layer_type_lower` on a raw type-name string
(program_builder.cpp lines 37-42). Implemented over the character list so
that it evaluates by kernel reduction. -/
def layer_type_lower_str (typeName : String) : String :=
  String.mk (typeName.data.map Char.toLower)

/-- The `ends_with(prim_id, ".out0")` suffix test of `add_primitive`,
over the character lists. -/
def strEndsWith (s post : String) : Bool :=
  List.isSuffixOf post.data s.data

/-- `prim_id.substr(0, prim_id.length() - n)`: drop the last `n`
characters, over the character lists. -/
def strDropRight (s : String) (n : Nat) : String :=
  String.mk (s.data.take (s.data.length - n))

/-- `layer_type_lower(op)`. -/
def layer_type_lower (op : Node) : String :=
  layer_type_lower_str op.type_info.name

/-- `layer_type_name_ID(op)` (program_builder.cpp lines 44-46). -/
def layer_type_name_ID (op : Node) : String :=
  layer_type_lower op ++ ":" ++ op.friendly_name

/-- `cldnn::input_info`: a producer primitive id plus an output index. -/
structure InputInfo where
  pid : String
  idx : Nat
deriving DecidableEq, Repr

/-- The kind of a cldnn primitive, with the payloads the claims inspect. -/
inductive PrimKind where
  | permute (order : List Nat)
  | gemm (transpose_a transpose_b : Bool) (rank_a rank_b : Nat)
         (output_type : ElementType)
  | reshape (output_dims : List Nat)
  | data
  | mutable_data
  | generic (tag : String)
deriving DecidableEq, Repr

/-- `prim->type_string()`. -/
def PrimKind.type_string : PrimKind → String
  | .permute _ => "permute"
  | .gemm _ _ _ _ _ => "gemm"
  | .reshape _ => "reshape"
  | .data => "data"
  | .mutable_data => "mutable_data"
  | .generic tag => tag

/-- A cldnn primitive: id, kind, input references and the two origin
passthrough fields used for diagnostics. -/
structure Primitive where
  id : String
  kind : PrimKind
  inputs : List InputInfo
  origin_op_name : String
  origin_op_type_name : String
deriving DecidableEq, Repr

/-- One entry of the profiling table written by `init_profile_info`
(the constant fields status/times/isCPU are omitted). -/
structure ProfEntry where
  layerType : String
  parentPrimitive : String
deriving DecidableEq, Repr

/-- Insert-or-replace update of an association list, the functional model
of `std::map::operator[]` assignment. -/
def upsert {α β : Type} [DecidableEq α] : List (α × β) → α → β → List (α × β)
  | [], k, v => [(k, v)]
  | (k0, v0) :: rest, k, v =>
      if k0 = k then (k, v) :: rest else (k0, v0) :: upsert rest k v

/-- Lookup in an association list, the functional model of
`std::map::find` / `std::map::at`. -/
def lookupKey {α β : Type} [DecidableEq α] : List (α × β) → α → Option β
  | [], _ => none
  | (k0, v0) :: rest, k => if k0 = k then some v0 else lookupKey rest k

/-- The mutable state of a `ProgramBuilder` that the embedded member
functions read or write, plus the two read-only configuration facts they
consult (`enable_profiling` from m_config, `supports_immad` from the
engine device info) and the custom-kernel overlay key set. -/
structure PBState where
  queryMode : Bool
  allow_new_shape_infer : Bool
  m_topology : Option (List Primitive)
  primitive_ids : List (String × String)
  profiling_ids : List String
  perfMap : List (String × ProfEntry)
  enable_profiling : Bool
  custom_layers : List String
  supports_immad : Bool
deriving DecidableEq, Repr

/-- Result type of the state-mutating builder entry points: on a C++ throw
the error carries the message and the builder state at the throw point. -/
abbrev BuildResult := Except (String × PBState) PBState

/-- A registered factory (`factories_map` value). -/
abbrev Factory := PBState → Node → BuildResult

/-- Projects the `.ok` state of a build step, for stating concrete runs. -/
def okState (r : BuildResult) : Option PBState :=
  match r with
  | .ok s => some s
  | .error _ => none

/-- Two builder states agree on everything except the identity map, the
profiling structures and the topology: the flags and the read-only
configuration. -/
def coreAgrees (a b : PBState) : Prop :=
  a.queryMode = b.queryMode ∧
  a.allow_new_shape_infer = b.allow_new_shape_infer ∧
  a.custom_layers = b.custom_layers ∧
  a.supports_immad = b.supports_immad ∧
  a.enable_profiling = b.enable_profiling

/-- `ProgramBuilder::requires_new_shape_infer`
(program_builder.cpp lines 312-331). -/
def requires_new_shape_infer (op : Node) : Bool :=
  if op.is_dynamic then true
  else if op.is_fc_compressed then true
  else if op.output_shapes.any (fun ps => ps.length > 6) then true
  else if op.input_shapes.any (fun ps => ps.length > 6) then true
  else false

/-- The message of the `OPENVINO_THROW` in `GetInputInfo`
(program_builder.cpp line 250). The apostrophe is spelled numerically to
keep it out of the source text. -/
def unresolvedInputMsg (prevName : String) : String :=
  "Input " ++ prevName ++ " hasn" ++ (Char.ofNat 39).toString ++
  "t been found in primitive_ids map"

/-- `layer_type_name_ID(prevOp)` for the producer of an edge. -/
def producer_identity (edge : InputEdge) : String :=
  layer_type_lower_str edge.producer_type_name ++ ":" ++ edge.producer_friendly_name

/-- The `is_legacy_multiple_outputs` flag of `GetInputInfo`
(program_builder.cpp lines 240-243). -/
def is_legacy_multiple_outputs (allow_new_shape_infer : Bool) (edge : InputEdge) : Bool :=
  !allow_new_shape_infer || edge.producer_is_split || edge.producer_is_variadic_split

/-- The `prevName` key `GetInputInfo` computes for one edge
(program_builder.cpp lines 239-246). -/
def resolve_input_key (allow_new_shape_infer : Bool) (edge : InputEdge) : String :=
  let prevName := producer_identity edge
  if edge.producer_output_size > 1 &&
     is_legacy_multiple_outputs allow_new_shape_infer edge then
    prevName ++ ".out" ++ toString edge.source_output_index
  else prevName

/-- The output index `GetInputInfo` stores in the `cldnn::input_info` for
one edge (program_builder.cpp lines 253 and 255). -/
def resolve_output_index (allow_new_shape_infer : Bool) (edge : InputEdge) : Nat :=
  if is_legacy_multiple_outputs allow_new_shape_infer edge then 0
  else edge.source_output_index

/-- The body of the `GetInputInfo` loop for one edge
(program_builder.cpp lines 237-256). -/
def resolve_input (s : PBState) (edge : InputEdge) : Except String InputInfo :=
  let prevName := resolve_input_key s.allow_new_shape_infer edge
  if !s.queryMode then
    match lookupKey s.primitive_ids prevName with
    | none => .error (unresolvedInputMsg prevName)
    | some pid => .ok ⟨pid, resolve_output_index s.allow_new_shape_infer edge⟩
  else
    .ok ⟨prevName, resolve_output_index s.allow_new_shape_infer edge⟩

/-- `ProgramBuilder::GetInputInfo` (program_builder.cpp lines 229-259); the
loop aborts at the first throwing edge. `GetInputInfo` is const, so the
error carries only the message. -/
def GetInputInfo (s : PBState) (op : Node) : Except String (List InputInfo) :=
  op.inputs.mapM (resolve_input s)

/-- `validate_inputs_count` (program_builder.cpp lines 355-365): `none`
when the node's input count is accepted, otherwise the throw message. -/
def validate_inputs_count (op : Node) (valid_inputs_count : List Nat) : Option String :=
  if valid_inputs_count.contains op.inputs.length then none
  else some ("Invalid inputs count (" ++ toString op.inputs.length ++ ") in )" ++
             op.friendly_name ++ " (" ++ op.type_info.name ++ " " ++
             op.type_info.version_id ++ ")")

/-- `should_profile` of `add_primitive` (program_builder.cpp lines 285-286). -/
def should_profile (k : PrimKind) : Bool :=
  !(k == PrimKind.mutable_data || k == PrimKind.data)

/-- The `.out0` special case test of `add_primitive`
(program_builder.cpp line 292): `ends_with(prim_id, ".out0") &&
prim_id.length() > 5 && prim_id.substr(0, prim_id.length() - 5) == id`. -/
def out0_case (prim_id id : String) : Bool :=
  strEndsWith prim_id ".out0" && prim_id.length > 5 && strDropRight prim_id 5 == id

/-- `ProgramBuilder::init_profile_info` (program_builder.cpp lines 261-269),
restricted to the perfMap fields the embedding keeps. -/
def init_profile_info (perfMap : List (String × ProfEntry)) (prim : Primitive) :
    List (String × ProfEntry) :=
  upsert perfMap prim.id ⟨prim.origin_op_type_name, prim.origin_op_name⟩

/-- The state produced by the body of `ProgramBuilder::add_primitive`
(program_builder.cpp lines 282-309) once the topology null check has
passed, with `topo` the current topology contents. -/
def add_primitive_core (s : PBState) (op : Node) (prim0 : Primitive)
    (aliases : List String) (topo : List Primitive) : PBState :=
  let prim1 := { prim0 with origin_op_name := op.friendly_name,
                            origin_op_type_name := op.type_info.name }
  let sp := should_profile prim1.kind
  let prim_id := prim1.id
  let id := layer_type_name_ID op
  let pids1 := upsert s.primitive_ids id prim_id
  let multi_output_case := out0_case prim_id id
  let pids2 := if id ≠ prim_id then upsert pids1 prim_id prim_id else pids1
  let prim2 := if id ≠ prim_id && !multi_output_case then
                 { prim1 with origin_op_type_name := prim1.kind.type_string }
               else prim1
  let profIds := if s.enable_profiling && sp then s.profiling_ids ++ [prim_id]
                 else s.profiling_ids
  let perf := if s.enable_profiling && sp then init_profile_info s.perfMap prim2
              else s.perfMap
  let pids3 := aliases.foldl (fun m a => upsert m a prim_id) pids2
  { s with primitive_ids := pids3,
           profiling_ids := profIds,
           perfMap := perf,
           m_topology := some (topo ++ [prim2]) }

/-- `ProgramBuilder::add_primitive` (program_builder.cpp lines 279-310):
the `OPENVINO_ASSERT` on a null topology, then the body. -/
def add_primitive (s : PBState) (op : Node) (prim0 : Primitive)
    (aliases : List String) : BuildResult :=
  match s.m_topology with
  | none => .error ("[GPU] Invalid ProgramBuilder builder state: topology is nullptr", s)
  | some topo => .ok (add_primitive_core s op prim0 aliases topo)

/-- The throw message of `CreateSingleLayerPrimitive` when the type chain
is exhausted (program_builder.cpp lines 222-226). -/
def unsupportedMsg (op : Node) : String :=
  "Operation: " ++ op.friendly_name ++ " of type " ++ op.type_info.name ++
  "(" ++ op.type_info.version_id ++ ") is not supported"

/-- The `while (op_type_info != nullptr)` loop of
`CreateSingleLayerPrimitive` (program_builder.cpp lines 205-226), walking
the remaining type chain. -/
def CSLP_go (custom_op : Factory) (factories : List (NodeTypeInfo × Factory))
    (s : PBState) (op : Node) : List NodeTypeInfo → BuildResult
  | [] => .error (unsupportedMsg op, s)
  | ti :: rest =>
    if s.custom_layers.contains op.type_info.name then custom_op s op
    else
      match lookupKey factories ti with
      | some f => f s op
      | none => CSLP_go custom_op factories s op rest

/-- `ProgramBuilder::CreateSingleLayerPrimitive`
(program_builder.cpp lines 199-227), parametric in the custom-kernel path
and the registered factories map. -/
def CreateSingleLayerPrimitive (custom_op : Factory)
    (factories : List (NodeTypeInfo × Factory)) (s : PBState) (op : Node) :
    BuildResult :=
  CSLP_go custom_op factories s op (op.type_info :: op.parent_types)

/-- `ProgramBuilder::is_op_supported` (program_builder.cpp lines 171-197).
`EnableQueryMode`, `prepare_build` and the `allow_new_shape_infer`
overwrite touch three distinct fields with no intervening reads, so they
are one combined state update here; then `CreateSingleLayerPrimitive`,
and on success `cleanup_build` followed by `DisableQueryMode`. The catch
branch performs `cleanup_build` only and returns false, leaving every
other mutation made before the throw in place. -/
def is_op_supported (custom_op : Factory)
    (factories : List (NodeTypeInfo × Factory)) (s : PBState) (op : Node) :
    Bool × PBState :=
  match CreateSingleLayerPrimitive custom_op factories
      { s with queryMode := true,
               m_topology := some [],
               allow_new_shape_infer := requires_new_shape_infer op } op with
  | .ok s4 => (true, { s4 with m_topology := none, queryMode := false })
  | .error (_, s4) => (false, { s4 with m_topology := none })

/-- The per-node loop of `ProgramBuilder::build`
(program_builder.cpp lines 151-153): lower every node in order; the first
throw aborts the whole build with no partial program. -/
def build_loop (custom_op : Factory) (factories : List (NodeTypeInfo × Factory)) :
    PBState → List Node → BuildResult
  | s, [] => .ok s
  | s, op :: rest =>
    match CreateSingleLayerPrimitive custom_op factories s op with
    | .error e => .error e
    | .ok s1 => build_loop custom_op factories s1 rest

/-- The permutation order built by `transposeInput` (matmul.cpp lines
77-79): iota over the rank with the last two entries swapped. -/
def matmulTransposeOrder (n : Nat) : List Nat :=
  (List.range n).take (n - 2) ++ ((List.range n).drop (n - 2)).reverse

/-- The `transposeInput` lambda of `CreateMatMulOp`
(matmul.cpp lines 75-87). -/
def transposeInput (s : PBState) (op : Node) (shape : PartialShape)
    (suffix : String) (primitiveId : String) :
    Except (String × PBState) (PBState × InputInfo) :=
  let transposeOrder := matmulTransposeOrder shape.length
  let permuteName := op.friendly_name ++ suffix
  let permutePrim : Primitive :=
    { id := permuteName, kind := PrimKind.permute transposeOrder,
      inputs := [⟨primitiveId, 0⟩], origin_op_name := "",
      origin_op_type_name := "" }
  match add_primitive s op permutePrim [] with
  | .error e => .error e
  | .ok s1 => .ok (s1, ⟨permuteName, 0⟩)

/-- One conditional transpose-fixup of `CreateMatMulOp`
(matmul.cpp lines 90-93 resp. 95-98): when `doFix` holds, insert the
permute ahead of operand `pos`, rebind that input and clear the flag. -/
def matmulFixupStep (s : PBState) (op : Node) (shape : PartialShape)
    (suffix : String) (doFix : Bool) (inputs : List InputInfo) (pos : Nat)
    (flag : Bool) : Except (String × PBState) (PBState × List InputInfo × Bool) :=
  if doFix then
    match transposeInput s op shape suffix (inputs.getD pos ⟨"", 0⟩).pid with
    | .error e => .error e
    | .ok (s1, info) => .ok (s1, inputs.set pos info, false)
  else .ok (s, inputs, flag)

/-- The tail of `CreateMatMulOp` from the gemm construction on
(matmul.cpp lines 101-124): build the gemm primitive from the (possibly
rebound) inputs and resolved transpose flags, add it, and in the legacy
regime append the output reshape when the output rank is below 4. The
ranks are read from the node's input shapes (matmul.cpp lines 31-32). -/
def matmulEmitGemm (s2 : PBState) (op : Node) (inputs2 : List InputInfo)
    (transA1 transB1 : Bool) : BuildResult :=
  match add_primitive s2 op
      { id := layer_type_name_ID op,
        kind := PrimKind.gemm transA1 transB1
                  (op.input_shapes.getD 0 []).length
                  (op.input_shapes.getD 1 []).length
                  op.output_element_type,
        inputs := inputs2, origin_op_name := "",
        origin_op_type_name := "" } [] with
  | .error e => .error e
  | .ok s3 =>
    if !s3.allow_new_shape_infer then
      if ((op.output_shapes.getD 0 []).to_shape).length < 4 then
        add_primitive s3 op
          { id := layer_type_name_ID op ++ "_cldnn_out_reshape",
            kind := PrimKind.reshape ((op.output_shapes.getD 0 []).to_shape),
            inputs := [⟨layer_type_name_ID op, 0⟩], origin_op_name := "",
            origin_op_type_name := "" } []
      else .ok s3
    else .ok s3

/-- `CreateMatMulOp` (matmul.cpp lines 23-124): validate the arity,
resolve the inputs, apply the two conditional transpose fixups, then emit
the gemm (and legacy reshape) via `matmulEmitGemm`. -/
def CreateMatMulOp (s : PBState) (op : Node) : BuildResult :=
  match validate_inputs_count op [2] with
  | some msg => .error (msg, s)
  | none =>
  match GetInputInfo s op with
  | .error msg => .error (msg, s)
  | .ok inputs0 =>
    let shape_a := op.input_shapes.getD 0 []
    let shape_b := op.input_shapes.getD 1 []
    let canT := canTransposeInputs shape_a shape_b op.transpose_a op.transpose_b
                  op.input0_element_type s.supports_immad
    match matmulFixupStep s op shape_a "/transpose_a" (canT && op.transpose_a)
            inputs0 0 op.transpose_a with
    | .error e => .error e
    | .ok (s1, inputs1, transA1) =>
      match matmulFixupStep s1 op shape_b "/transpose_b" (canT && op.transpose_b)
              inputs1 1 op.transpose_b with
      | .error e => .error e
      | .ok (s2, inputs2, transB1) => matmulEmitGemm s2 op inputs2 transA1 transB1

/-- Modelled from the spec: `CreateCustomOp` (the custom-kernel path taken
when the overlay table has an entry for the node's type name) is not among
the provided sources; the spec says only that it handles the node
terminally. Modelled as emitting one generic primitive under the node's
identity. No theorem below exercises this path: every theorem involving
dispatch assumes the overlay does not cover the node. -/
def CreateCustomOp (s : PBState) (op : Node) : BuildResult :=
  add_primitive s op
    { id := layer_type_name_ID op, kind := PrimKind.generic "custom_gpu_primitive",
      inputs := [], origin_op_name := "", origin_op_type_name := "" } []

/-- The type identity `ov::op::v0::MatMul` registers under
(`REGISTER_FACTORY_IMPL(v0, MatMul)`, matmul.cpp line 126). -/
def matmulTypeInfo : NodeTypeInfo := ⟨"MatMul", "opset1"⟩

/-- The registered factories the embedding models: the matmul builder. -/
def matmulFactories : List (NodeTypeInfo × Factory) :=
  [(matmulTypeInfo, CreateMatMulOp)]

/-- First operand shape of the C1 failing input: [2, 3] (6 elements). -/
def C1_shape_a : PartialShape := [Dimension.static 2, Dimension.static 3]

/-- Second operand shape of the C1 failing input: [1000, 101]
(101000 elements, above the 100000 threshold). -/
def C1_shape_b : PartialShape := [Dimension.static 1000, Dimension.static 101]

/-- An input edge whose producer is a single-output Parameter node. -/
def paramEdge (n : String) : InputEdge :=
  { producer_type_name := "Parameter", producer_friendly_name := n,
    producer_output_size := 1, producer_is_split := false,
    producer_is_variadic_split := false, source_output_index := 0 }

/-- A builder state in build mode with an open topology and the two
Parameter producers of the concrete matmul nodes already lowered. -/
def C5_state : PBState :=
  { queryMode := false, allow_new_shape_infer := false,
    m_topology := some [],
    primitive_ids := [("parameter:a", "parameter:a"), ("parameter:b", "parameter:b")],
    profiling_ids := [], perfMap := [], enable_profiling := false,
    custom_layers := [], supports_immad := false }

/-- A MatMul node with static [1000,1000] x [1000,1000] inputs and
transpose_a set. -/
def C5_op : Node :=
  { type_info := matmulTypeInfo, parent_types := [],
    friendly_name := "mm",
    inputs := [paramEdge "a", paramEdge "b"],
    input_shapes := [[Dimension.static 1000, Dimension.static 1000],
                     [Dimension.static 1000, Dimension.static 1000]],
    output_shapes := [[Dimension.static 1000, Dimension.static 1000]],
    transpose_a := true, transpose_b := false,
    input0_element_type := ElementType.f32,
    output_element_type := ElementType.f32,
    is_fc_compressed := false }

/-- A MatMul node with static [16,16] x [16,16] inputs and transpose_a
set: both trailing dimensions of both shapes are 16-aligned. -/
def C6_op : Node :=
  { type_info := matmulTypeInfo, parent_types := [],
    friendly_name := "mm",
    inputs := [paramEdge "a", paramEdge "b"],
    input_shapes := [[Dimension.static 16, Dimension.static 16],
                     [Dimension.static 16, Dimension.static 16]],
    output_shapes := [[Dimension.static 16, Dimension.static 16]],
    transpose_a := true, transpose_b := false,
    input0_element_type := ElementType.f32,
    output_element_type := ElementType.f32,
    is_fc_compressed := false }

/-- A builder state outside any build (null topology, empty identity map)
with `allow_new_shape_infer` initially true. -/
def C2_s0 : PBState :=
  { queryMode := false, allow_new_shape_infer := true,
    m_topology := none, primitive_ids := [], profiling_ids := [],
    perfMap := [], enable_profiling := false, custom_layers := [],
    supports_immad := false }

/-- A static node of an unregistered type. -/
def C2_opU : Node :=
  { type_info := ⟨"Foo", "opset1"⟩, parent_types := [],
    friendly_name := "u", inputs := [], input_shapes := [],
    output_shapes := [[Dimension.static 1]],
    transpose_a := false, transpose_b := false,
    input0_element_type := ElementType.f32,
    output_element_type := ElementType.f32,
    is_fc_compressed := false }

/-- A builder state outside any build with an empty identity map: none of
the producers of any node have been lowered. -/
def C9_state : PBState :=
  { queryMode := false, allow_new_shape_infer := false,
    m_topology := none, primitive_ids := [], profiling_ids := [],
    perfMap := [], enable_profiling := false, custom_layers := [],
    supports_immad := false }

/-- A small static MatMul node (no transpose) whose producers are never
lowered in `C9_state`. -/
def C9_op : Node :=
  { type_info := matmulTypeInfo, parent_types := [],
    friendly_name := "q",
    inputs := [paramEdge "x", paramEdge "y"],
    input_shapes := [[Dimension.static 2, Dimension.static 2],
                     [Dimension.static 2, Dimension.static 2]],
    output_shapes := [[Dimension.static 2, Dimension.static 2]],
    transpose_a := false, transpose_b := false,
    input0_element_type := ElementType.f32,
    output_element_type := ElementType.f32,
    is_fc_compressed := false }

/-- A Split node (identity `split:sp`) used for the `.out0` special case. -/
def C3_op : Node :=
  { type_info := ⟨"Split", "opset1"⟩, parent_types := [],
    friendly_name := "sp", inputs := [], input_shapes := [],
    output_shapes := [[Dimension.static 1]],
    transpose_a := false, transpose_b := false,
    input0_element_type := ElementType.f32,
    output_element_type := ElementType.f32,
    is_fc_compressed := false }

/-- A primitive whose id is the `C3_op` node identity suffixed `.out0`. -/
def C3_prim : Primitive :=
  { id := "split:sp.out0", kind := PrimKind.generic "crop", inputs := [],
    origin_op_name := "", origin_op_type_name := "" }

/-- A build-mode state with an open empty topology and no lowered nodes. -/
def C3_state : PBState :=
  { queryMode := false, allow_new_shape_infer := false,
    m_topology := some [], primitive_ids := [], profiling_ids := [],
    perfMap := [], enable_profiling := false, custom_layers := [],
    supports_immad := false }

/-- A query-mode state (legacy shape-inference regime). -/
def C4_state : PBState :=
  { queryMode := true, allow_new_shape_infer := false,
    m_topology := none, primitive_ids := [], profiling_ids := [],
    perfMap := [], enable_profiling := false, custom_layers := [],
    supports_immad := false }

/-- An edge whose producer `p` is a two-output Parameter-typed node and
which reads output 1. -/
def C4_edge : InputEdge :=
  { producer_type_name := "Parameter", producer_friendly_name := "p",
    producer_output_size := 2, producer_is_split := false,
    producer_is_variadic_split := false, source_output_index := 1 }

/-- A build-mode state where producer `b` is lowered but `a` is not. -/
def C8_state : PBState :=
  { queryMode := false, allow_new_shape_infer := false,
    m_topology := some [], primitive_ids := [("parameter:b", "parameter:b")],
    profiling_ids := [], perfMap := [], enable_profiling := false,
    custom_layers := [], supports_immad := false }

/-- C1: with static rank-2 inputs [2,3] and [1000,101], transpose_a set, f32
element type and no unified-memory acceleration, only the second operand
exceeds the 100000-element threshold, yet `canTransposeInputs` answers
false, because the source computes `in1_very_large` from `shapes[0]`
(matmul.cpp line 69); the spec-worded heuristic answers true. -/
theorem canTransposeInputs_ignores_second_operand_count :
    canTransposeInputs C1_shape_a C1_shape_b true false ElementType.f32 false = false ∧
    canTransposeInputsSpec C1_shape_a C1_shape_b true false ElementType.f32 false = true ∧
    shapeCount C1_shape_a ≤ 100000 ∧
    shapeCount C1_shape_b > 100000 := by
  refine ⟨rfl, rfl, by decide, by decide⟩

/-- C5: lowering a MatMul with static [1000,1000] x [1000,1000] inputs and
transpose_a=true emits the permutation primitive `mm/transpose_a` (swapping
the two axes) reading the first operand, a gemm whose first input is
rebound to that permutation and whose transpose_a flag is false, and (in
the legacy regime) the trailing output reshape. -/
theorem matmul_large_unaligned_inserts_transpose_fixup :
    (okState (CreateMatMulOp C5_state C5_op)).map (fun s =>
        (s.m_topology.getD []).map (fun p => (p.id, p.kind, p.inputs))) =
      some [("mm/transpose_a", PrimKind.permute [1, 0],
              [⟨"parameter:a", 0⟩]),
            ("matmul:mm", PrimKind.gemm false false 2 2 ElementType.f32,
              [⟨"mm/transpose_a", 0⟩, ⟨"parameter:b", 0⟩]),
            ("matmul:mm_cldnn_out_reshape", PrimKind.reshape [1000, 1000],
              [⟨"matmul:mm", 0⟩])] := by
  rfl

/-- C6: lowering a MatMul with static [16,16] x [16,16] inputs and
transpose_a=true emits no permutation primitive — only the gemm (with
transpose_a still true) and the legacy output reshape. -/
theorem matmul_aligned16_skips_transpose_fixup :
    (okState (CreateMatMulOp C5_state C6_op)).map (fun s =>
        (s.m_topology.getD []).map (fun p => (p.id, p.kind, p.inputs))) =
      some [("matmul:mm", PrimKind.gemm true false 2 2 ElementType.f32,
              [⟨"parameter:a", 0⟩, ⟨"parameter:b", 0⟩]),
            ("matmul:mm_cldnn_out_reshape", PrimKind.reshape [16, 16],
              [⟨"matmul:mm", 0⟩])] := by
  rfl

/-- C2 counterexample: `is_op_supported` is not free of effects on the real
build state. Probing the unsupported node `C2_opU` from `C2_s0` leaves
`queryMode` stuck at true (the catch branch never calls DisableQueryMode)
and overwrites `allow_new_shape_infer` from true to false; probing the
supported MatMul `C9_op` from `C9_state` returns true but leaves the
primitives recorded during the probe in `primitive_ids`. -/
theorem is_op_supported_not_side_effect_free :
    ((is_op_supported CreateCustomOp matmulFactories C2_s0 C2_opU).2.queryMode = true ∧
      C2_s0.queryMode = false) ∧
    ((is_op_supported CreateCustomOp matmulFactories C2_s0 C2_opU).2.allow_new_shape_infer
        = false ∧
      C2_s0.allow_new_shape_infer = true) ∧
    ((is_op_supported CreateCustomOp matmulFactories C9_state C9_op).1 = true ∧
      (is_op_supported CreateCustomOp matmulFactories C9_state C9_op).2.primitive_ids ≠
        C9_state.primitive_ids) := by
  exact ⟨⟨rfl, rfl⟩, ⟨rfl, rfl⟩, rfl, by decide⟩

/-- C3 counterexample: when the primitive id is exactly the node identity
suffixed `.out0`, `add_primitive` still records the primitive id as its own
alias (the `primitive_ids[prim_id] = prim_id` write at
program_builder.cpp line 294 is guarded only by `id != prim_id`, not by the
multi-output test). -/
theorem add_primitive_out0_self_alias_recorded :
    (okState (add_primitive C3_state C3_op C3_prim [])).map
        (fun s => lookupKey s.primitive_ids "split:sp.out0") =
      some (some "split:sp.out0") := by
  rfl

theorem lookupKey_upsert {α β : Type} [DecidableEq α] (m : List (α × β))
    (k : α) (v : β) (k' : α) :
    lookupKey (upsert m k v) k' = if k' = k then some v else lookupKey m k' := by
  induction m with
  | nil =>
    by_cases h : k = k'
    · simp [upsert, lookupKey, h]
    · have h' : ¬(k' = k) := fun e => h e.symm
      simp [upsert, lookupKey, h, h']
  | cons p rest ih =>
    obtain ⟨k0, v0⟩ := p
    by_cases hk : k0 = k
    · by_cases h : k = k'
      · simp [upsert, lookupKey, hk, h]
      · have h' : ¬(k' = k) := fun e => h e.symm
        have h0 : ¬(k0 = k') := fun e => h (hk.symm.trans e)
        simp [upsert, lookupKey, hk, h, h', h0]
    · by_cases h0 : k0 = k'
      · have h' : ¬(k' = k) := fun e => hk (h0.trans e)
        simp [upsert, lookupKey, hk, h0, h']
      · simp only [upsert, lookupKey, if_neg hk, if_neg h0, ih]

theorem lookupKey_foldl_upsert {α β : Type} [DecidableEq α] (aliases : List α)
    (m : List (α × β)) (v : β) (k : α) :
    lookupKey (aliases.foldl (fun acc a => upsert acc a v) m) k =
      if k ∈ aliases then some v else lookupKey m k := by
  induction aliases generalizing m with
  | nil => simp
  | cons a rest ih =>
    simp only [List.foldl_cons, ih, lookupKey_upsert, List.mem_cons]
    by_cases h : k ∈ rest
    · simp [h]
    · by_cases h2 : k = a <;> simp [h, h2]

/-- Full characterization of a successful `add_primitive` call: it always
succeeds when the topology is open, preserves the flags and configuration,
appends exactly one primitive, binds the node identity and the primitive's
own id and every alias to the primitive id, and overwrites the appended
primitive's diagnostic type name exactly when the primitive id differs
from the node identity and is not the `.out0` special case. -/
theorem add_primitive_ok (s : PBState) (op : Node) (prim : Primitive)
    (aliases : List String) (t : List Primitive) (h : s.m_topology = some t) :
    ∃ s', add_primitive s op prim aliases = .ok s' ∧
      s'.queryMode = s.queryMode ∧
      s'.allow_new_shape_infer = s.allow_new_shape_infer ∧
      s'.custom_layers = s.custom_layers ∧
      s'.supports_immad = s.supports_immad ∧
      s'.enable_profiling = s.enable_profiling ∧
      lookupKey s'.primitive_ids (layer_type_name_ID op) = some prim.id ∧
      lookupKey s'.primitive_ids prim.id = some prim.id ∧
      (∀ a ∈ aliases, lookupKey s'.primitive_ids a = some prim.id) ∧
      (∃ p2, s'.m_topology = some (t ++ [p2]) ∧ p2.id = prim.id ∧
        ((layer_type_name_ID op ≠ prim.id ∧
            out0_case prim.id (layer_type_name_ID op) = false →
          p2.origin_op_type_name = prim.kind.type_string) ∧
         (layer_type_name_ID op = prim.id ∨
            out0_case prim.id (layer_type_name_ID op) = true →
          p2.origin_op_type_name = op.type_info.name))) := by
  refine ⟨add_primitive_core s op prim aliases t, ?_, rfl, rfl, rfl, rfl, rfl, ?_, ?_, ?_, ?_⟩
  · unfold add_primitive; rw [h]
  · show lookupKey (aliases.foldl _ _) _ = _
    rw [lookupKey_foldl_upsert]
    by_cases ha : layer_type_name_ID op ∈ aliases
    · simp [ha]
    · rw [if_neg ha]
      by_cases hid : layer_type_name_ID op ≠ prim.id
      · rw [if_pos hid, lookupKey_upsert, if_neg hid, lookupKey_upsert, if_pos rfl]
      · rw [if_neg hid, lookupKey_upsert, if_pos rfl]
  · show lookupKey (aliases.foldl _ _) _ = _
    rw [lookupKey_foldl_upsert]
    by_cases ha : prim.id ∈ aliases
    · simp [ha]
    · rw [if_neg ha]
      by_cases hid : layer_type_name_ID op ≠ prim.id
      · rw [if_pos hid, lookupKey_upsert, if_pos rfl]
      · rw [if_neg hid, lookupKey_upsert]
        rw [not_not] at hid
        rw [if_pos hid.symm]
  · intro a ha
    show lookupKey (aliases.foldl _ _) _ = _
    rw [lookupKey_foldl_upsert, if_pos ha]
  · refine ⟨_, rfl, ?_, ?_, ?_⟩
    · by_cases hid : layer_type_name_ID op ≠ prim.id <;>
        by_cases ho : out0_case prim.id (layer_type_name_ID op) <;>
        simp [hid, ho]
    · rintro ⟨h1, h2⟩
      simp [h1, h2]
    · rintro (h1 | h2)
      · simp [h1]
      · simp [h2]

theorem resolve_input_query (s : PBState) (e : InputEdge) (hq : s.queryMode = true) :
    resolve_input s e =
      .ok ⟨resolve_input_key s.allow_new_shape_infer e,
           resolve_output_index s.allow_new_shape_infer e⟩ := by
  simp [resolve_input, hq]

theorem getInputInfo_query (s : PBState) (op : Node) (hq : s.queryMode = true) :
    GetInputInfo s op =
      .ok (op.inputs.map (fun e =>
        ⟨resolve_input_key s.allow_new_shape_infer e,
         resolve_output_index s.allow_new_shape_infer e⟩)) := by
  unfold GetInputInfo
  induction op.inputs with
  | nil => rfl
  | cons e rest ih =>
    rw [List.mapM_cons, resolve_input_query s e hq, ih]
    rfl

/-- C9: in query mode `GetInputInfo` never consults the `primitive_ids`
map: for every state and node it returns, without any possibility of
failure, the references built from the producers' derived identities (the
formula does not mention `primitive_ids` at all); consequently
`is_op_supported` returns true for the MatMul node `C9_op` from the state
`C9_state` whose identity map is empty (no producer was ever lowered). -/
theorem getInputInfo_query_mode_no_lookup :
    (∀ (s : PBState) (op : Node), s.queryMode = true →
      GetInputInfo s op =
        .ok (op.inputs.map (fun e =>
          ⟨resolve_input_key s.allow_new_shape_infer e,
           resolve_output_index s.allow_new_shape_infer e⟩))) ∧
    (is_op_supported CreateCustomOp matmulFactories C9_state C9_op).1 = true ∧
    C9_state.primitive_ids = [] := by
  exact ⟨getInputInfo_query, rfl, rfl⟩

/-- Witness for C9: the universally quantified part instantiated at a
query-mode state and the concrete MatMul node. -/
theorem getInputInfo_query_mode_no_lookup_witness :
    GetInputInfo C4_state C9_op =
      .ok (C9_op.inputs.map (fun e =>
        ⟨resolve_input_key C4_state.allow_new_shape_infer e,
         resolve_output_index C4_state.allow_new_shape_infer e⟩)) :=
  getInputInfo_query_mode_no_lookup.1 C4_state C9_op rfl

/-- C10 (amended only in presentation, content as claimed): after every
successful `add_primitive` call the identity map binds the node's derived
identity to the id of the primitive just added, so when one node produces
several primitives the identity finally maps to the last one; concretely,
lowering `C5_op` (permute, then gemm, then the legacy output reshape)
leaves `matmul:mm` bound to `matmul:mm_cldnn_out_reshape`. -/
theorem add_primitive_identity_maps_last_primitive :
    (∀ (s : PBState) (op : Node) (prim : Primitive) (aliases : List String)
       (t : List Primitive), s.m_topology = some t →
       ∃ s', add_primitive s op prim aliases = .ok s' ∧
         lookupKey s'.primitive_ids (layer_type_name_ID op) = some prim.id) ∧
    (okState (CreateMatMulOp C5_state C5_op)).map
        (fun s => lookupKey s.primitive_ids "matmul:mm") =
      some (some "matmul:mm_cldnn_out_reshape") := by
  constructor
  · intro s op prim aliases t h
    obtain ⟨s', he, _, _, _, _, _, hid, _⟩ := add_primitive_ok s op prim aliases t h
    exact ⟨s', he, hid⟩
  · rfl

/-- Witness for C10: the universally quantified part applied to the
concrete `.out0` fixture. -/
theorem add_primitive_identity_maps_last_primitive_witness :
    (okState (add_primitive C3_state C3_op C3_prim [])).map
        (fun s => lookupKey s.primitive_ids (layer_type_name_ID C3_op)) =
      some (some C3_prim.id) := by
  obtain ⟨s', he, hid⟩ :=
    add_primitive_identity_maps_last_primitive.1 C3_state C3_op C3_prim [] [] rfl
  simp [okState, he, hid]

/-- C3 amended: `add_primitive` maps the node identity and every alias to
the primitive id; whenever the primitive id differs from the node identity
it also records the primitive id as its own alias — including the `.out0`
special case; the diagnostic type name is overwritten exactly when the id
differs and is not the `.out0` case (in the `.out0` case it keeps the
node's type name). -/
theorem add_primitive_alias_and_origin_rules :
    ∀ (s : PBState) (op : Node) (prim : Primitive) (aliases : List String)
      (t : List Primitive), s.m_topology = some t →
      ∃ s', add_primitive s op prim aliases = .ok s' ∧
        lookupKey s'.primitive_ids (layer_type_name_ID op) = some prim.id ∧
        (prim.id ≠ layer_type_name_ID op →
          lookupKey s'.primitive_ids prim.id = some prim.id) ∧
        (∀ a ∈ aliases, lookupKey s'.primitive_ids a = some prim.id) ∧
        (∃ p2, s'.m_topology = some (t ++ [p2]) ∧
          (layer_type_name_ID op ≠ prim.id ∧
             out0_case prim.id (layer_type_name_ID op) = false →
            p2.origin_op_type_name = prim.kind.type_string) ∧
          (out0_case prim.id (layer_type_name_ID op) = true →
            p2.origin_op_type_name = op.type_info.name)) := by
  intro s op prim aliases t h
  obtain ⟨s', he, _, _, _, _, _, hid, hself, halias, p2, htopo, _, hover, hkeep⟩ :=
    add_primitive_ok s op prim aliases t h
  exact ⟨s', he, hid, fun _ => hself, halias,
         p2, htopo, hover, fun ho => hkeep (Or.inr ho)⟩

/-- Witness for C3: the amended theorem applied to the `.out0` fixture;
the self-alias is present and the appended primitive keeps the node's
type name. -/
theorem add_primitive_alias_and_origin_rules_witness :
    (okState (add_primitive C3_state C3_op C3_prim [])).map
        (fun s => (lookupKey s.primitive_ids C3_prim.id,
                   (s.m_topology.getD []).map Primitive.origin_op_type_name)) =
      some (some C3_prim.id, ["Split"]) := by
  obtain ⟨s', he, _, hself, _, p2, htopo, _, hkeep⟩ :=
    add_primitive_alias_and_origin_rules C3_state C3_op C3_prim [] [] rfl
  have h1 := hself (by decide)
  have h2 := hkeep (by decide)
  have hok : okState (add_primitive C3_state C3_op C3_prim []) = some s' := by
    rw [he]; rfl
  rw [hok]
  simp [h1, htopo, h2, C3_op]

/-- C4: for every edge successfully resolved by the `GetInputInfo` loop
body (in either mode), if the producer has more than one output and the
legacy test holds (legacy regime, or a Split/VariadicSplit producer), the
lookup key is the producer identity suffixed `.out` + edge index and the
reference carries output index 0; otherwise the key is the bare producer
identity and the reference carries the edge's true output index. -/
theorem getInputInfo_multi_output_suffix (s : PBState) (edge : InputEdge)
    (info : InputInfo)
    (hidx : edge.source_output_index < edge.producer_output_size)
    (hres : resolve_input s edge = .ok info) :
    (edge.producer_output_size > 1 ∧
       is_legacy_multiple_outputs s.allow_new_shape_infer edge = true →
      resolve_input_key s.allow_new_shape_infer edge =
        producer_identity edge ++ ".out" ++ toString edge.source_output_index ∧
      info.idx = 0) ∧
    (¬(edge.producer_output_size > 1 ∧
        is_legacy_multiple_outputs s.allow_new_shape_infer edge = true) →
      resolve_input_key s.allow_new_shape_infer edge = producer_identity edge ∧
      info.idx = edge.source_output_index) := by
  have hinfo : info.idx = resolve_output_index s.allow_new_shape_infer edge := by
    unfold resolve_input at hres
    by_cases hq : s.queryMode
    · simp [hq] at hres
      rw [← hres]
    · simp [hq] at hres
      rcases hcl : lookupKey s.primitive_ids
          (resolve_input_key s.allow_new_shape_infer edge) with _ | pid
      · rw [hcl] at hres; cases hres
      · rw [hcl] at hres
        simp at hres
        rw [← hres]
  constructor
  · rintro ⟨h1, h2⟩
    constructor
    · simp [resolve_input_key, h1, h2]
    · rw [hinfo]
      simp [resolve_output_index, h2]
  · intro hno
    by_cases h2 : is_legacy_multiple_outputs s.allow_new_shape_infer edge = true
    · have h1 : ¬(edge.producer_output_size > 1) := fun h1 => hno ⟨h1, h2⟩
      have hsz : edge.producer_output_size ≤ 1 := Nat.not_lt.mp h1
      have hiz : edge.source_output_index = 0 := by omega
      constructor
      · simp [resolve_input_key, h1]
      · rw [hinfo]
        simp [resolve_output_index, h2, hiz]
    · constructor
      · simp [resolve_input_key, h2]
      · rw [hinfo]
        simp [resolve_output_index, h2]

/-- Witness for C4: a two-output producer read at index 1 in the legacy
regime gets the `.out1` suffix and output index 0. -/
theorem getInputInfo_multi_output_suffix_witness :
    1 < C4_edge.producer_output_size ∧
    resolve_input C4_state C4_edge = .ok ⟨"parameter:p.out1", 0⟩ ∧
    resolve_input_key C4_state.allow_new_shape_infer C4_edge =
      producer_identity C4_edge ++ ".out" ++
        toString C4_edge.source_output_index := by
  refine ⟨by decide, rfl, ?_⟩
  exact ((getInputInfo_multi_output_suffix C4_state C4_edge ⟨"parameter:p.out1", 0⟩
    (by decide) rfl).1 ⟨by decide, by decide⟩).1

/-- C7: when the node's type name is not in the custom-kernel overlay and
no identity of its type chain (exact type or any ancestor) is registered,
`CreateSingleLayerPrimitive` fails with the unsupported-operation error
carrying the node's friendly name, type name and version identifier, and
the state at the throw is unchanged. -/
theorem cslp_unsupported_operation_error :
    ∀ (custom_op : Factory) (factories : List (NodeTypeInfo × Factory))
      (s : PBState) (op : Node),
      s.custom_layers.contains op.type_info.name = false →
      (∀ ti ∈ op.type_info :: op.parent_types, lookupKey factories ti = none) →
      CreateSingleLayerPrimitive custom_op factories s op =
        .error ("Operation: " ++ op.friendly_name ++ " of type " ++
                op.type_info.name ++ "(" ++ op.type_info.version_id ++
                ") is not supported", s) := by
  intro custom_op factories s op hc hreg
  unfold CreateSingleLayerPrimitive
  have hgo : ∀ l : List NodeTypeInfo, (∀ ti ∈ l, lookupKey factories ti = none) →
      CSLP_go custom_op factories s op l = .error (unsupportedMsg op, s) := by
    intro l
    induction l with
    | nil => intro _; rfl
    | cons ti rest ih =>
      intro hall
      simp only [CSLP_go, hc, Bool.false_eq_true, if_false,
                 hall ti (List.mem_cons_self ti rest)]
      exact ih (fun x hx => hall x (List.mem_cons_of_mem ti hx))
  exact hgo _ hreg

/-- Witness for C7: probing the unregistered `Foo` node against the
modeled registry yields exactly the unsupported-operation error. -/
theorem cslp_unsupported_operation_error_witness :
    CreateSingleLayerPrimitive CreateCustomOp matmulFactories C9_state C2_opU =
      .error ("Operation: u of type Foo(opset1) is not supported", C9_state) := by
  exact cslp_unsupported_operation_error CreateCustomOp matmulFactories C9_state C2_opU
    rfl (by
      intro ti hti
      rcases List.mem_cons.mp hti with h | h
      · subst h; rfl
      · cases h)

theorem mapM_resolve_missing (s : PBState) (hq : s.queryMode = false) :
    ∀ (l : List InputEdge),
      (∃ e ∈ l, lookupKey s.primitive_ids
          (resolve_input_key s.allow_new_shape_infer e) = none) →
      ∃ e ∈ l, lookupKey s.primitive_ids
          (resolve_input_key s.allow_new_shape_infer e) = none ∧
        l.mapM (resolve_input s) =
          .error (unresolvedInputMsg (resolve_input_key s.allow_new_shape_infer e)) := by
  intro l
  induction l with
  | nil => rintro ⟨e, he, _⟩; cases he
  | cons e rest ih =>
    rintro ⟨e0, he0, hnone⟩
    by_cases hm : lookupKey s.primitive_ids
        (resolve_input_key s.allow_new_shape_infer e) = none
    · refine ⟨e, List.mem_cons_self e rest, hm, ?_⟩
      rw [List.mapM_cons]
      have hre : resolve_input s e =
          .error (unresolvedInputMsg (resolve_input_key s.allow_new_shape_infer e)) := by
        simp [resolve_input, hq, hm]
      rw [hre]
      rfl
    · have hrest : ∃ e' ∈ rest, lookupKey s.primitive_ids
          (resolve_input_key s.allow_new_shape_infer e') = none := by
        rcases List.mem_cons.mp he0 with h | h
        · subst h; exact absurd hnone hm
        · exact ⟨e0, h, hnone⟩
      obtain ⟨e', hmem, hnone', herr⟩ := ih hrest
      refine ⟨e', List.mem_cons_of_mem e hmem, hnone', ?_⟩
      rw [List.mapM_cons]
      rcases hpid : lookupKey s.primitive_ids
          (resolve_input_key s.allow_new_shape_infer e) with _ | pid
      · exact absurd hpid hm
      · have hre : resolve_input s e =
            .ok ⟨pid, resolve_output_index s.allow_new_shape_infer e⟩ := by
          simp [resolve_input, hq, hpid]
        rw [hre, herr]
        rfl

/-- C8: in build mode, if the resolved identity of one of a node's input
edges is absent from the identity map, `GetInputInfo` fails with the
unresolved-input error naming that (first such) identity; for a node
dispatched to the modeled MatMul builder the whole build aborts with that
error, the state at the throw being the unmodified entry state (no partial
result). -/
theorem getInputInfo_unresolved_input_aborts :
    ∀ (s : PBState) (op : Node),
      s.queryMode = false →
      s.custom_layers = [] →
      op.type_info = matmulTypeInfo →
      op.inputs.length = 2 →
      (∃ e ∈ op.inputs, lookupKey s.primitive_ids
          (resolve_input_key s.allow_new_shape_infer e) = none) →
      ∃ e ∈ op.inputs,
        lookupKey s.primitive_ids (resolve_input_key s.allow_new_shape_infer e) = none ∧
        GetInputInfo s op =
          .error (unresolvedInputMsg (resolve_input_key s.allow_new_shape_infer e)) ∧
        build_loop CreateCustomOp matmulFactories s [op] =
          .error (unresolvedInputMsg (resolve_input_key s.allow_new_shape_infer e), s) := by
  intro s op hq hc hmm h2 hex
  obtain ⟨e, hmem, hnone, herr⟩ := mapM_resolve_missing s hq op.inputs hex
  refine ⟨e, hmem, hnone, herr, ?_⟩
  have hcslp : CreateSingleLayerPrimitive CreateCustomOp matmulFactories s op =
      CreateMatMulOp s op := by
    unfold CreateSingleLayerPrimitive
    rw [hmm]
    simp [CSLP_go, hc, matmulFactories, lookupKey]
  have hv : validate_inputs_count op [2] = none := by
    simp [validate_inputs_count, h2]
  have hmat : CreateMatMulOp s op =
      .error (unresolvedInputMsg (resolve_input_key s.allow_new_shape_infer e), s) := by
    have herr2 : GetInputInfo s op =
        .error (unresolvedInputMsg (resolve_input_key s.allow_new_shape_infer e)) := herr
    unfold CreateMatMulOp
    rw [hv, herr2]
  simp only [build_loop, hcslp, hmat]

/-- Witness for C8: from `C8_state` (producer `b` lowered, `a` not), the
MatMul node `C5_op` fails to resolve `parameter:a` and the single-node
build aborts with that error and the entry state. -/
theorem getInputInfo_unresolved_input_aborts_witness :
    GetInputInfo C8_state C5_op = .error (unresolvedInputMsg "parameter:a") ∧
    build_loop CreateCustomOp matmulFactories C8_state [C5_op] =
      .error (unresolvedInputMsg "parameter:a", C8_state) := by
  obtain ⟨e, hmem, hnone, hgii, hbuild⟩ :=
    getInputInfo_unresolved_input_aborts C8_state C5_op rfl rfl rfl rfl
      ⟨paramEdge "a", by simp [C5_op], by rfl⟩
  have he : e = paramEdge "a" := by
    have hmem2 : e = paramEdge "a" ∨ e = paramEdge "b" := by
      simpa [C5_op] using hmem
    rcases hmem2 with h | h
    · exact h
    · subst h
      exact absurd hnone (by decide)
  subst he
  exact ⟨hgii, hbuild⟩

theorem add_primitive_eq (s : PBState) (op : Node) (prim : Primitive)
    (al : List String) (t : List Primitive) (h : s.m_topology = some t) :
    add_primitive s op prim al = .ok (add_primitive_core s op prim al t) := by
  unfold add_primitive
  rw [h]

theorem add_primitive_core_agrees (s : PBState) (op : Node) (prim : Primitive)
    (al : List String) (t : List Primitive) :
    coreAgrees (add_primitive_core s op prim al t) s :=
  ⟨rfl, rfl, rfl, rfl, rfl⟩

theorem coreAgrees_trans {a b c : PBState} (h1 : coreAgrees a b)
    (h2 : coreAgrees b c) : coreAgrees a c := by
  obtain ⟨q1, a1, c1, m1, p1⟩ := h1
  obtain ⟨q2, a2, c2, m2, p2⟩ := h2
  exact ⟨q1.trans q2, a1.trans a2, c1.trans c2, m1.trans m2, p1.trans p2⟩

theorem add_primitive_core_allow (s : PBState) (op : Node) (prim : Primitive)
    (al : List String) (t : List Primitive) :
    (add_primitive_core s op prim al t).allow_new_shape_infer =
      s.allow_new_shape_infer := rfl

theorem transposeInput_never_errors {s : PBState} {op : Node}
    {shape : PartialShape} {suffix : String} {pid : String}
    {t : List Primitive} (h : s.m_topology = some t)
    {err : String × PBState} :
    transposeInput s op shape suffix pid ≠ .error err := by
  intro he
  unfold transposeInput at he
  simp only [] at he
  rw [add_primitive_eq s op _ [] t h] at he
  simp at he

theorem transposeInput_ok_inv {s : PBState} {op : Node}
    {shape : PartialShape} {suffix : String} {pid : String}
    {t : List Primitive} (h : s.m_topology = some t)
    {s1 : PBState} {info : InputInfo}
    (he : transposeInput s op shape suffix pid = .ok (s1, info)) :
    coreAgrees s1 s ∧ ∃ t1, s1.m_topology = some t1 := by
  unfold transposeInput at he
  simp only [] at he
  rw [add_primitive_eq s op _ [] t h] at he
  simp at he
  obtain ⟨hs1, _⟩ := he
  rw [← hs1]
  exact ⟨add_primitive_core_agrees s op _ [] t, _, rfl⟩

theorem matmulFixupStep_never_errors {s : PBState} {op : Node}
    {shape : PartialShape} {suffix : String} {doFix : Bool}
    {inputs : List InputInfo} {pos : Nat} {flag : Bool}
    {t : List Primitive} (h : s.m_topology = some t)
    {err : String × PBState} :
    matmulFixupStep s op shape suffix doFix inputs pos flag ≠ .error err := by
  intro he
  unfold matmulFixupStep at he
  by_cases hf : doFix = true
  · rw [if_pos hf] at he
    rcases htr : transposeInput s op shape suffix (inputs.getD pos ⟨"", 0⟩).pid
        with e | ⟨sx, info⟩
    · exact absurd htr (transposeInput_never_errors h)
    · rw [htr] at he
      simp at he
  · rw [if_neg hf] at he
    simp at he

theorem matmulFixupStep_ok_inv {s : PBState} {op : Node}
    {shape : PartialShape} {suffix : String} {doFix : Bool}
    {inputs : List InputInfo} {pos : Nat} {flag : Bool}
    {t : List Primitive} (h : s.m_topology = some t)
    {s1 : PBState} {inputs1 : List InputInfo} {flag1 : Bool}
    (he : matmulFixupStep s op shape suffix doFix inputs pos flag =
          .ok (s1, inputs1, flag1)) :
    coreAgrees s1 s ∧ ∃ t1, s1.m_topology = some t1 := by
  unfold matmulFixupStep at he
  by_cases hf : doFix = true
  · rw [if_pos hf] at he
    rcases htr : transposeInput s op shape suffix (inputs.getD pos ⟨"", 0⟩).pid
        with e | ⟨sx, info⟩
    · exact absurd htr (transposeInput_never_errors h)
    · rw [htr] at he
      simp at he
      obtain ⟨hs1, -, -⟩ := he
      rw [← hs1]
      exact transposeInput_ok_inv h htr
  · rw [if_neg hf] at he
    simp at he
    obtain ⟨hs1, -, -⟩ := he
    rw [← hs1]
    exact ⟨⟨rfl, rfl, rfl, rfl, rfl⟩, t, h⟩

theorem matmulEmitGemm_ok (s2 : PBState) (op : Node) (inputs2 : List InputInfo)
    (transA1 transB1 : Bool) (t2 : List Primitive)
    (h : s2.m_topology = some t2) :
    ∃ s4, matmulEmitGemm s2 op inputs2 transA1 transB1 = .ok s4 ∧
      coreAgrees s4 s2 := by
  unfold matmulEmitGemm
  rw [add_primitive_eq s2 op _ [] t2 h]
  simp only [add_primitive_core_allow]
  by_cases hA : s2.allow_new_shape_infer = true
  · simp only [hA, Bool.not_true, Bool.false_eq_true, if_false]
    exact ⟨_, rfl, add_primitive_core_agrees s2 op _ [] t2⟩
  · rw [Bool.not_eq_true] at hA
    simp only [hA, Bool.not_false, if_true]
    by_cases hlen : ((op.output_shapes.getD 0 []).to_shape).length < 4
    · rw [if_pos hlen]
      rw [add_primitive_eq _ op _ [] _ rfl]
      exact ⟨_, rfl, coreAgrees_trans (add_primitive_core_agrees _ op _ [] _)
        (add_primitive_core_agrees s2 op _ [] t2)⟩
    · rw [if_neg hlen]
      exact ⟨_, rfl, add_primitive_core_agrees s2 op _ [] t2⟩

theorem createMatMulOp_query_ok (s : PBState) (op : Node) (t : List Primitive)
    (hq : s.queryMode = true) (h : s.m_topology = some t)
    (h2 : op.inputs.length = 2) :
    ∃ s4, CreateMatMulOp s op = .ok s4 ∧ coreAgrees s4 s := by
  unfold CreateMatMulOp
  rw [show validate_inputs_count op [2] = none from by
        simp [validate_inputs_count, h2]]
  rw [getInputInfo_query s op hq]
  simp only []
  split
  · rename_i e heq
    exact absurd heq (matmulFixupStep_never_errors h)
  · rename_i s1 inputs1 transA1 heq
    obtain ⟨hc1, t1, ht1⟩ := matmulFixupStep_ok_inv h heq
    split
    · rename_i e heq2
      exact absurd heq2 (matmulFixupStep_never_errors ht1)
    · rename_i s2 inputs2 transB1 heq2
      obtain ⟨hc2, t2, ht2⟩ := matmulFixupStep_ok_inv ht1 heq2
      obtain ⟨s4, he4, hc4⟩ := matmulEmitGemm_ok s2 op inputs2 transA1 transB1 t2 ht2
      exact ⟨s4, he4, coreAgrees_trans (coreAgrees_trans hc4 hc2) hc1⟩

theorem createMatMulOp_arity_error (s : PBState) (op : Node)
    (h2 : ¬(op.inputs.length = 2)) :
    ∃ msg, CreateMatMulOp s op = .error (msg, s) := by
  unfold CreateMatMulOp
  rcases hv : validate_inputs_count op [2] with _ | msg
  · simp [validate_inputs_count, h2] at hv
  · exact ⟨msg, rfl⟩

theorem cslp_matmul_dispatch (s : PBState) (op : Node)
    (hc : s.custom_layers = []) :
    CreateSingleLayerPrimitive CreateCustomOp matmulFactories s op =
      (if matmulTypeInfo ∈ op.type_info :: op.parent_types
       then CreateMatMulOp s op
       else .error (unsupportedMsg op, s)) := by
  unfold CreateSingleLayerPrimitive
  have hcc : s.custom_layers.contains op.type_info.name = false := by
    rw [hc]; rfl
  have hgo : ∀ l : List NodeTypeInfo,
      CSLP_go CreateCustomOp matmulFactories s op l =
        (if matmulTypeInfo ∈ l then CreateMatMulOp s op
         else .error (unsupportedMsg op, s)) := by
    intro l
    induction l with
    | nil => simp [CSLP_go]
    | cons ti rest ih =>
      simp only [CSLP_go, hcc, Bool.false_eq_true, if_false]
      by_cases hti : ti = matmulTypeInfo
      · subst hti
        have hlk : lookupKey matmulFactories matmulTypeInfo =
            some CreateMatMulOp := by
          simp [matmulFactories, lookupKey]
        rw [hlk, if_pos (List.mem_cons_self matmulTypeInfo rest)]
      · have hti' : ¬(matmulTypeInfo = ti) := fun e => hti e.symm
        have hlk : lookupKey matmulFactories ti = none := by
          simp [matmulFactories, lookupKey, hti']
        rw [hlk]
        show CSLP_go CreateCustomOp matmulFactories s op rest = _
        rw [ih]
        by_cases hm : matmulTypeInfo ∈ rest
        · rw [if_pos hm, if_pos (List.mem_cons_of_mem ti hm)]
        · rw [if_neg hm, if_neg (by
            rw [List.mem_cons]
            rintro (h | h)
            · exact hti' h
            · exact hm h)]
  exact hgo _

theorem is_op_supported_char (s : PBState) (op : Node)
    (hc : s.custom_layers = []) :
    ((is_op_supported CreateCustomOp matmulFactories s op).1 = true ↔
      (matmulTypeInfo ∈ op.type_info :: op.parent_types ∧
       op.inputs.length = 2)) ∧
    (is_op_supported CreateCustomOp matmulFactories s op).2.m_topology = none ∧
    (is_op_supported CreateCustomOp matmulFactories s op).2.allow_new_shape_infer =
      requires_new_shape_infer op ∧
    (is_op_supported CreateCustomOp matmulFactories s op).2.queryMode =
      !(is_op_supported CreateCustomOp matmulFactories s op).1 ∧
    (is_op_supported CreateCustomOp matmulFactories s op).2.custom_layers = [] ∧
    (is_op_supported CreateCustomOp matmulFactories s op).2.supports_immad =
      s.supports_immad := by
  unfold is_op_supported
  rw [cslp_matmul_dispatch
        { s with queryMode := true, m_topology := some [],
                 allow_new_shape_infer := requires_new_shape_infer op } op hc]
  by_cases hmem : matmulTypeInfo ∈ op.type_info :: op.parent_types
  · rw [if_pos hmem]
    by_cases h2 : op.inputs.length = 2
    · obtain ⟨s4, he, hq4, ha4, hcl4, hsi4, _⟩ :=
        createMatMulOp_query_ok
          { s with queryMode := true, m_topology := some [],
                   allow_new_shape_infer := requires_new_shape_infer op }
          op [] rfl rfl h2
      rw [he]
      refine ⟨by simp [hmem, h2], rfl, ?_, rfl, ?_, ?_⟩
      · exact ha4
      · exact hcl4.trans hc
      · exact hsi4
    · obtain ⟨msg, he⟩ := createMatMulOp_arity_error
        { s with queryMode := true, m_topology := some [],
                 allow_new_shape_infer := requires_new_shape_infer op } op h2
      rw [he]
      refine ⟨by simp [h2], rfl, rfl, rfl, hc, rfl⟩
  · rw [if_neg hmem]
    refine ⟨by simp [hmem], rfl, rfl, rfl, hc, rfl⟩

/-- C2 amended: with the modeled registry (the MatMul builder) and no
custom-kernel overlay, `is_op_supported` yields the same boolean when
called a second time on the same node from the state the first call left
behind, and it resets the topology pointer to null on both paths; but it
is not free of effects on the real build state: `allow_new_shape_infer` is
overwritten with `requires_new_shape_infer op` on both paths, and
`queryMode` ends up `true` exactly when the query failed (the catch branch
never calls DisableQueryMode). -/
theorem is_op_supported_idempotent_and_cleanup :
    ∀ (s : PBState) (op : Node), s.custom_layers = [] →
      (is_op_supported CreateCustomOp matmulFactories
          ((is_op_supported CreateCustomOp matmulFactories s op).2) op).1 =
        (is_op_supported CreateCustomOp matmulFactories s op).1 ∧
      (is_op_supported CreateCustomOp matmulFactories s op).2.m_topology = none ∧
      (is_op_supported CreateCustomOp matmulFactories
          s op).2.allow_new_shape_infer = requires_new_shape_infer op ∧
      (is_op_supported CreateCustomOp matmulFactories s op).2.queryMode =
        !(is_op_supported CreateCustomOp matmulFactories s op).1 := by
  intro s op hc
  obtain ⟨hb1, ht1, ha1, hq1, hcl1, hsi1⟩ := is_op_supported_char s op hc
  obtain ⟨hb2, -, -, -, -, -⟩ :=
    is_op_supported_char
      (is_op_supported CreateCustomOp matmulFactories s op).2 op hcl1
  refine ⟨?_, ht1, ha1, hq1⟩
  by_cases hR : matmulTypeInfo ∈ op.type_info :: op.parent_types ∧
      op.inputs.length = 2
  · rw [hb2.mpr hR, hb1.mpr hR]
  · have h1 : ¬((is_op_supported CreateCustomOp matmulFactories s op).1 = true) :=
      fun h => hR (hb1.mp h)
    have h2 : ¬((is_op_supported CreateCustomOp matmulFactories
        ((is_op_supported CreateCustomOp matmulFactories s op).2) op).1 = true) :=
      fun h => hR (hb2.mp h)
    rw [Bool.not_eq_true] at h1 h2
    rw [h1, h2]

/-- Witness for C2: the amended theorem instantiated at the concrete
MatMul probe. -/
theorem is_op_supported_idempotent_and_cleanup_witness :
    (is_op_supported CreateCustomOp matmulFactories
        ((is_op_supported CreateCustomOp matmulFactories C9_state C9_op).2)
        C9_op).1 =
      (is_op_supported CreateCustomOp matmulFactories C9_state C9_op).1 ∧
    (is_op_supported CreateCustomOp matmulFactories
        C9_state C9_op).2.m_topology = none ∧
    (is_op_supported CreateCustomOp matmulFactories
        C9_state C9_op).2.allow_new_shape_infer =
      requires_new_shape_infer C9_op ∧
    (is_op_supported CreateCustomOp matmulFactories C9_state C9_op).2.queryMode =
      !(is_op_supported CreateCustomOp matmulFactories C9_state C9_op).1 :=
  is_op_supported_idempotent_and_cleanup C9_state C9_op rfl

end OVGpu
